import Mathlib

/-!
Verification of the Graph-bot repository: a shallow embedding of the Express
gateway (`server/index.js`), the React client state (`App.tsx`,
`QueryInput.tsx`), and a spec-modelled Quality Gate for the engine service
that is not part of the checked sources.
-/

namespace GraphBot

/-! ### Gateway model (`server/index.js`) -/

/-- MIME types accepted by the multer fileFilter (`allowedMimes` in index.js). -/
def allowedMimes : List String :=
  ["text/csv",
   "application/vnd.ms-excel",
   "application/vnd.openxmlformats-officedocument.spreadsheetml.sheet"]

/-- File extensions accepted by the multer fileFilter (`allowedExtensions`). -/
def allowedExtensions : List String := [".csv", ".xls", ".xlsx"]

/-- Multer `limits.fileSize`: 10 * 1024 * 1024 bytes. -/
def fileSizeLimit : Nat := 10 * 1024 * 1024

/-- The axios request timeout (ms) used for the engine call in index.js. -/
def axiosTimeoutMs : Nat := 300000

/-- Index of the last occurrence of a character in a character list. -/
def lastIdxOf (c : Char) : List Char → Option Nat
  | [] => none
  | x :: xs =>
    match lastIdxOf c xs with
    | some i => some (i + 1)
    | none => if x = c then some 0 else none

/-- Characters after the last occurrence of `c` (the whole list if absent). -/
def dropThroughLast (c : Char) (cs : List Char) : List Char :=
  match lastIdxOf c cs with
  | some i => cs.drop (i + 1)
  | none => cs

/-- Embedding of Node's path.extname: the suffix of the basename from its last
dot, empty when there is no dot or the basename starts with its only dot. -/
def extname (s : String) : String :=
  let b := dropThroughLast '/' s.toList
  match lastIdxOf '.' b with
  | some i => if i = 0 then "" else String.mk (b.drop i)
  | none => ""

/-- Embedding of JavaScript's toLowerCase on the relevant ASCII range,
character by character. -/
def lowerString (s : String) : String := String.mk (s.toList.map Char.toLower)

/-- An uploaded file as multer presents it to the handler. -/
structure UploadedFile where
  originalname : String
  mimetype : String
  size : Nat
  path : String
deriving DecidableEq, Repr

/-- The multer fileFilter from index.js: accept iff the MIME type is allowed
and the lowercased extension is allowed. -/
def fileFilter (file : UploadedFile) : Bool :=
  allowedMimes.contains file.mimetype &&
    allowedExtensions.contains (lowerString (extname file.originalname))

/-- Result of multer processing an incoming file. -/
inductive MulterOutcome where
  | accepted (f : UploadedFile)
  | rejectedFilter
  | rejectedSize
deriving DecidableEq

/-- Multer with the configuration of index.js: the fileFilter decides
acceptance, and the fileSize limit rejects larger files. -/
def multerProcess (f : UploadedFile) : MulterOutcome :=
  if fileFilter f then
    if fileSizeLimit < f.size then MulterOutcome.rejectedSize
    else MulterOutcome.accepted f
  else MulterOutcome.rejectedFilter

/-- A JSON response body: either an object with an `error` field built by the
gateway, or a payload forwarded verbatim from the engine service. -/
inductive Body (β : Type) where
  | errorMsg (msg : String)
  | payload (data : β)
deriving DecidableEq

/-- An HTTP response: status code and body. -/
structure HttpResponse (β : Type) where
  status : Nat
  body : Body β
deriving DecidableEq

/-- Observable effects of the generate-graph route, in program order. -/
inductive Effect (β : Type) where
  | callEngine
  | unlink (filePath : String)
  | respond (r : HttpResponse β)
deriving DecidableEq

/-- The possible outcomes of the single axios call to the engine service:
a 2xx response, an error response (axios `httpError.response` present), a
connection refusal (ECONNREFUSED), a timeout expiry, or another transport
error. -/
inductive DownstreamOutcome (β : Type) where
  | success (data : β)
  | errorResponse (status : Nat) (data : β)
  | connRefused
  | timedOut
  | otherError
deriving DecidableEq

/-- The generate-graph handler body (index.js lines 84-155) as an effect
trace: validation of `req.file` and `req.body.query`, one engine call, file
cleanup, and the response of the corresponding branch. -/
def handleGenerate {β : Type} (file : Option UploadedFile) (query : String)
    (outcome : DownstreamOutcome β) : List (Effect β) :=
  match file with
  | none => [Effect.respond ⟨400, Body.errorMsg "No file uploaded"⟩]
  | some f =>
    if query = "" then
      [Effect.respond ⟨400, Body.errorMsg "No query provided"⟩]
    else
      Effect.callEngine ::
      match outcome with
      | DownstreamOutcome.success d =>
          [Effect.unlink f.path, Effect.respond ⟨200, Body.payload d⟩]
      | DownstreamOutcome.errorResponse s d =>
          [Effect.unlink f.path, Effect.respond ⟨s, Body.payload d⟩]
      | DownstreamOutcome.connRefused =>
          [Effect.unlink f.path,
           Effect.respond ⟨503, Body.errorMsg "Graph generation service unavailable"⟩]
      | DownstreamOutcome.timedOut =>
          [Effect.unlink f.path,
           Effect.respond ⟨500, Body.errorMsg "Failed to start graph generation service"⟩]
      | DownstreamOutcome.otherError =>
          [Effect.unlink f.path,
           Effect.respond ⟨500, Body.errorMsg "Failed to start graph generation service"⟩]

/-- The whole route: multer runs first; its rejections are turned into 400
responses by the error-handling middleware (index.js lines 158-167); accepted
requests run the handler. -/
def processUpload {β : Type} (file : Option UploadedFile) (query : String)
    (outcome : DownstreamOutcome β) : List (Effect β) :=
  match file with
  | none => handleGenerate none query outcome
  | some raw =>
    match multerProcess raw with
    | MulterOutcome.rejectedFilter =>
        [Effect.respond ⟨400, Body.errorMsg "Only CSV and Excel files are allowed!"⟩]
    | MulterOutcome.rejectedSize =>
        [Effect.respond ⟨400, Body.errorMsg "File size too large. Maximum 10MB allowed."⟩]
    | MulterOutcome.accepted f => handleGenerate (some f) query outcome

/-- Recognises the engine-call effect. -/
def isCallEngine {β : Type} : Effect β → Bool
  | Effect.callEngine => true
  | _ => false

/-- Number of engine calls in a trace. -/
def callCount {β : Type} (tr : List (Effect β)) : Nat := tr.countP isCallEngine

/-- The first response sent in a trace, if any. -/
def sentResponse {β : Type} : List (Effect β) → Option (HttpResponse β)
  | [] => none
  | Effect.respond r :: _ => some r
  | Effect.callEngine :: es => sentResponse es
  | Effect.unlink _ :: es => sentResponse es

/-! ### Client application state (`App.tsx`) -/

/-- The graph payload shape declared in the client's types.ts. -/
structure GraphResult where
  success : Bool
  session_id : String
  image : String
  chart_type : String
  message : String
deriving DecidableEq

/-- The chatbot (clarification) payload shape declared in types.ts. -/
structure ChatbotResponse where
  message : String
  suggestions : List String
deriving DecidableEq

/-- The React state of the App component. -/
structure AppState where
  selectedFile : Option String
  query : String
  graphResult : Option GraphResult
  isLoading : Bool
  chatbotResponse : Option ChatbotResponse
deriving DecidableEq

/-- Initial useState values of the App component. -/
def initialAppState : AppState :=
  { selectedFile := none, query := "", graphResult := none,
    isLoading := false, chatbotResponse := none }

/-- The events the App component handles, one per callback. -/
inductive AppEvent where
  | fileSelect (file : String)
  | querySubmit (q : String)
  | graphGenerated (r : GraphResult)
  | loadingChange (b : Bool)
  | chatbotResponded (r : ChatbotResponse)
  | suggestionClick (s : String)
  | reset

/-- State transition of the App component: each case performs exactly the
setState calls of the corresponding handler in App.tsx. -/
def step (s : AppState) : AppEvent → AppState
  | AppEvent.fileSelect file =>
      { s with selectedFile := some file, chatbotResponse := none, graphResult := none }
  | AppEvent.querySubmit q => { s with query := q }
  | AppEvent.graphGenerated r =>
      { s with graphResult := some r, chatbotResponse := none }
  | AppEvent.loadingChange b => { s with isLoading := b }
  | AppEvent.chatbotResponded r =>
      { s with chatbotResponse := some r, graphResult := none }
  | AppEvent.suggestionClick sg => { s with query := sg, chatbotResponse := none }
  | AppEvent.reset =>
      { selectedFile := none, query := "", graphResult := none,
        isLoading := false, chatbotResponse := none }

/-- At most one terminal result is recorded: the graph result and the chatbot
response are never both present. -/
def exclusiveResult (s : AppState) : Prop :=
  s.graphResult = none ∨ s.chatbotResponse = none

/-! ### Smart suggestions (`QueryInput.tsx`) -/

/-- Outcome of the suggestion-fetching request made by generateSmartSuggestions:
the suggestions list of the server response (empty when absent), or a request
failure. -/
inductive SuggestionFetch where
  | ok (suggestions : List String)
  | fetchError
deriving DecidableEq

/-- The fixed fallback suggestion list hard-coded in QueryInput.tsx, not
derived from the uploaded data. -/
def fallbackSuggestions : List String :=
  ["Show me a bar chart of the data",
   "Create a line chart showing trends",
   "Display a pie chart distribution",
   "Generate a scatter plot"]

/-- The suggestions the client ends up displaying: the server's list when it
is non-empty, otherwise (empty, absent, or request error) the generic
fallback list. -/
def generateSmartSuggestions : SuggestionFetch → List String
  | SuggestionFetch.ok s => if 0 < s.length then s else fallbackSuggestions
  | SuggestionFetch.fetchError => fallbackSuggestions

/-! ### Quality Gate, modelled from the spec

The engine service (Profiler, Quality Gate, Intent Resolver) is not among the
checked sources; only the gateway and client are. The definitions below are
modelled from the spec. -/

/-- Modelled from the spec: a cell value with a declared null marker. -/
abbrev Cell : Type := Option String

/-- Modelled from the spec: a named column of cell values. -/
structure Column where
  name : String
  values : List Cell
deriving DecidableEq

/-- Modelled from the spec: a table is an ordered sequence of named columns. -/
structure Table where
  cols : List Column
deriving DecidableEq

/-- Number of rows of a table (length of its columns). -/
def rowCount (t : Table) : Nat :=
  match t.cols with
  | [] => 0
  | c :: _ => c.values.length

/-- Number of distinct values appearing in a column. -/
def distinctCount (c : Column) : Nat := c.values.dedup.length

/-- Modelled from the spec: the inferred semantic type of a column. -/
inductive SemanticType where
  | numeric
  | categorical
  | temporal
  | boolean
  | textFree
  | unknown
deriving DecidableEq

/-- Modelled from the spec: the derived read-only per-column profile summary
(the fields the Quality Gate rules consult). -/
structure ColumnProfile where
  name : String
  semType : SemanticType
  distinct : Nat
  nullCount : Nat
  total : Nat
deriving DecidableEq

/-- Modelled from the spec: a tagged data deficiency. -/
inductive QualityIssue where
  | EmptyTable
  | AllColumnsConstant
  | NoSuitableColumn
  | TooManyMissing (column : String) (nullCount : Nat) (total : Nat)
deriving DecidableEq

/-- True when a profile's semantic type is numeric or temporal. -/
def isMeasureLike (p : ColumnProfile) : Bool :=
  match p.semType with
  | SemanticType.numeric => true
  | SemanticType.temporal => true
  | _ => false

/-- Modelled from the spec (missing engine service, section 4.2): the Quality
Gate rules, each independently evaluated — zero rows gives blocking
EmptyTable; every column having a single distinct value gives blocking
AllColumnsConstant; no numeric or temporal column while the requested chart
family needs one (the flag below) gives blocking NoSuitableColumn; a column
with null-ratio above 0.5 gives a non-blocking TooManyMissing warning. The
query itself is not an input of checkQuality. -/
def checkQuality (t : Table) (profiles : List ColumnProfile)
    (chartNeedsMeasure : Bool) : List QualityIssue × Bool :=
  let empts := if rowCount t = 0 then [QualityIssue.EmptyTable] else []
  let consts :=
    if t.cols.all (fun c => distinctCount c = 1) then
      [QualityIssue.AllColumnsConstant]
    else []
  let nosuit :=
    if chartNeedsMeasure && !(profiles.any isMeasureLike) then
      [QualityIssue.NoSuitableColumn]
    else []
  let missing := profiles.filterMap (fun p =>
    if p.total < 2 * p.nullCount then
      some (QualityIssue.TooManyMissing p.name p.nullCount p.total)
    else none)
  (empts ++ consts ++ nosuit ++ missing, !(empts ++ consts ++ nosuit).isEmpty)

/-! ### Helper lemmas -/

lemma callCount_handleGenerate_le_one {β : Type} (file : Option UploadedFile)
    (q : String) (o : DownstreamOutcome β) :
    callCount (handleGenerate file q o) ≤ 1 := by
  cases file with
  | none => simp [handleGenerate, callCount, isCallEngine]
  | some f =>
    by_cases hq : q = ""
    · simp [handleGenerate, hq, callCount, isCallEngine]
    · cases o <;> simp [handleGenerate, hq, callCount, isCallEngine]

lemma step_preserves_exclusive (s : AppState) (e : AppEvent)
    (h : exclusiveResult s) : exclusiveResult (step s e) := by
  cases e <;> simp_all [step, exclusiveResult]

lemma foldl_step_preserves_exclusive (events : List AppEvent) (s : AppState)
    (h : exclusiveResult s) : exclusiveResult (events.foldl step s) := by
  induction events generalizing s with
  | nil => exact h
  | cons e es ih => exact ih _ (step_preserves_exclusive s e h)

/-! ### Claims -/

/-- C1: an upload whose (case-insensitively lowered) extension is not in the
CSV/XLS/XLSX allow-list, or whose size exceeds the 10MB limit, is answered by
a 400 error response and the engine service is never called. -/
theorem invalid_upload_rejected_before_engine (β : Type) (raw : UploadedFile)
    (q : String) (o : DownstreamOutcome β)
    (h : lowerString (extname raw.originalname) ∉ allowedExtensions ∨
         fileSizeLimit < raw.size) :
    Effect.callEngine ∉ processUpload (some raw) q o ∧
    ∃ msg, processUpload (β := β) (some raw) q o =
      [Effect.respond ⟨400, Body.errorMsg msg⟩] := by
  have hmain : processUpload (β := β) (some raw) q o =
      [Effect.respond ⟨400, Body.errorMsg "Only CSV and Excel files are allowed!"⟩] ∨
      processUpload (β := β) (some raw) q o =
      [Effect.respond ⟨400, Body.errorMsg "File size too large. Maximum 10MB allowed."⟩] := by
    by_cases hf : fileFilter raw = true
    · rcases h with hext | hsize
      · have hmem : raw.mimetype ∈ allowedMimes ∧
            lowerString (extname raw.originalname) ∈ allowedExtensions := by
          simpa [fileFilter] using hf
        exact absurd hmem.2 hext
      · right
        simp [processUpload, multerProcess, hf, hsize]
    · left
      rw [Bool.not_eq_true] at hf
      simp [processUpload, multerProcess, hf]
  rcases hmain with hm | hm <;> rw [hm] <;> exact ⟨by simp, _, rfl⟩

theorem invalid_upload_rejected_before_engine_witness :
    Effect.callEngine ∉ processUpload (β := String)
        (some ⟨"data.txt", "text/csv", 100, "uploads/u1.txt"⟩) "plot sales"
        (DownstreamOutcome.success "ok") ∧
    ∃ msg, processUpload (β := String)
        (some ⟨"data.txt", "text/csv", 100, "uploads/u1.txt"⟩) "plot sales"
        (DownstreamOutcome.success "ok") =
      [Effect.respond ⟨400, Body.errorMsg msg⟩] :=
  invalid_upload_rejected_before_engine String
    ⟨"data.txt", "text/csv", 100, "uploads/u1.txt"⟩ "plot sales"
    (DownstreamOutcome.success "ok") (Or.inl (by decide))

/-- C2 counterexample: the engine call's configured timeout is 300000 ms,
which is not at most 60 seconds. -/
theorem engine_timeout_not_within_sixty_seconds :
    ¬ (axiosTimeoutMs ≤ 60 * 1000) := by decide

/-- C2 amended: the engine call is bounded by a 300000 ms (5 minute) timeout,
and on expiry the gateway surfaces an HTTP 500 error response rather than
hanging. -/
theorem engine_timeout_bounded_and_surfaced (β : Type) (f : UploadedFile)
    (q : String) (h : q ≠ "") :
    axiosTimeoutMs = 300000 ∧
    sentResponse (handleGenerate (β := β) (some f) q DownstreamOutcome.timedOut) =
      some ⟨500, Body.errorMsg "Failed to start graph generation service"⟩ :=
  ⟨rfl, by simp [handleGenerate, h, sentResponse]⟩

theorem engine_timeout_bounded_and_surfaced_witness :
    axiosTimeoutMs = 300000 ∧
    sentResponse (handleGenerate (β := String)
        (some ⟨"d.csv", "text/csv", 5, "uploads/u2.csv"⟩) "plot sales"
        DownstreamOutcome.timedOut) =
      some ⟨500, Body.errorMsg "Failed to start graph generation service"⟩ :=
  engine_timeout_bounded_and_surfaced String
    ⟨"d.csv", "text/csv", 5, "uploads/u2.csv"⟩ "plot sales" (by decide)

/-- C3: starting from the initial App state, after any sequence of events the
graph result and the chatbot response are never both non-null. -/
theorem graph_and_chatbot_mutually_exclusive (events : List AppEvent) :
    exclusiveResult (events.foldl step initialAppState) :=
  foldl_step_preserves_exclusive events initialAppState (Or.inl rfl)

/-- C4 counterexample: when the suggestion fetch fails (and likewise when the
response carries no suggestions) the client presents the fixed generic
fallback list, so the presented suggestions are generic placeholders not
synthesized from the uploaded data's column names. -/
theorem suggestions_generic_on_failure :
    generateSmartSuggestions SuggestionFetch.fetchError = fallbackSuggestions ∧
    generateSmartSuggestions (SuggestionFetch.ok []) = fallbackSuggestions ∧
    fallbackSuggestions ≠ [] :=
  ⟨rfl, rfl, by decide⟩

/-- C4 amended: the client displays the engine's suggestion list verbatim when
it is non-empty; when the list is empty/absent or the request fails it falls
back to the fixed generic 4-element list. -/
theorem suggestions_passthrough_or_generic_fallback (s : List String) (h : s ≠ []) :
    generateSmartSuggestions (SuggestionFetch.ok s) = s ∧
    generateSmartSuggestions SuggestionFetch.fetchError = fallbackSuggestions ∧
    generateSmartSuggestions (SuggestionFetch.ok []) = fallbackSuggestions ∧
    fallbackSuggestions.length = 4 := by
  refine ⟨?_, rfl, rfl, rfl⟩
  have hl : 0 < s.length := List.length_pos.mpr h
  simp [generateSmartSuggestions, hl]

theorem suggestions_passthrough_or_generic_fallback_witness :
    generateSmartSuggestions (SuggestionFetch.ok ["Show me sales by region"]) =
      ["Show me sales by region"] ∧
    generateSmartSuggestions SuggestionFetch.fetchError = fallbackSuggestions ∧
    generateSmartSuggestions (SuggestionFetch.ok []) = fallbackSuggestions ∧
    fallbackSuggestions.length = 4 :=
  suggestions_passthrough_or_generic_fallback ["Show me sales by region"] (by decide)

/-- C5: when the engine call fails at the transport level (connection refused,
timeout expiry, other request error) the gateway responds with a 5xx status
and an error-message body, which is never a forwarded (clarification) payload. -/
theorem transport_failure_is_service_error (β : Type) (f : UploadedFile)
    (q : String) (h : q ≠ "") (o : DownstreamOutcome β)
    (ho : o = DownstreamOutcome.connRefused ∨ o = DownstreamOutcome.timedOut ∨
          o = DownstreamOutcome.otherError) :
    ∃ code msg, sentResponse (handleGenerate (some f) q o) =
        some ⟨code, Body.errorMsg msg⟩ ∧ 500 ≤ code ∧
      ∀ d : β, (Body.errorMsg msg : Body β) ≠ Body.payload d := by
  rcases ho with rfl | rfl | rfl
  · exact ⟨503, "Graph generation service unavailable",
      by simp [handleGenerate, h, sentResponse], by norm_num, fun d => by simp⟩
  · exact ⟨500, "Failed to start graph generation service",
      by simp [handleGenerate, h, sentResponse], le_refl _, fun d => by simp⟩
  · exact ⟨500, "Failed to start graph generation service",
      by simp [handleGenerate, h, sentResponse], le_refl _, fun d => by simp⟩

theorem transport_failure_is_service_error_witness :
    ∃ code msg, sentResponse (handleGenerate (β := String)
        (some ⟨"d.csv", "text/csv", 5, "uploads/u3.csv"⟩) "plot sales"
        DownstreamOutcome.connRefused) =
        some ⟨code, Body.errorMsg msg⟩ ∧ 500 ≤ code ∧
      ∀ d : String, (Body.errorMsg msg : Body String) ≠ Body.payload d :=
  transport_failure_is_service_error String
    ⟨"d.csv", "text/csv", 5, "uploads/u3.csv"⟩ "plot sales" (by decide)
    DownstreamOutcome.connRefused (Or.inl rfl)

/-- C6: the route calls the engine service at most once on every path, and on
each failure of that single call the gateway answers with the corresponding
error response instead of retrying. -/
theorem engine_called_at_most_once (β : Type) (file : Option UploadedFile)
    (q : String) (o : DownstreamOutcome β) :
    callCount (processUpload file q o) ≤ 1 ∧
    (∀ f : UploadedFile, q ≠ "" →
      sentResponse (handleGenerate (β := β) (some f) q DownstreamOutcome.connRefused) =
        some ⟨503, Body.errorMsg "Graph generation service unavailable"⟩ ∧
      sentResponse (handleGenerate (β := β) (some f) q DownstreamOutcome.timedOut) =
        some ⟨500, Body.errorMsg "Failed to start graph generation service"⟩ ∧
      sentResponse (handleGenerate (β := β) (some f) q DownstreamOutcome.otherError) =
        some ⟨500, Body.errorMsg "Failed to start graph generation service"⟩ ∧
      ∀ (s : Nat) (d : β),
        sentResponse (handleGenerate (some f) q (DownstreamOutcome.errorResponse s d)) =
          some ⟨s, Body.payload d⟩) := by
  constructor
  · cases file with
    | none => exact callCount_handleGenerate_le_one none q o
    | some raw =>
      cases hm : multerProcess raw with
      | accepted f =>
        simpa [processUpload, hm] using callCount_handleGenerate_le_one (some f) q o
      | rejectedFilter => simp [processUpload, hm, callCount, isCallEngine]
      | rejectedSize => simp [processUpload, hm, callCount, isCallEngine]
  · intro f hq
    exact ⟨by simp [handleGenerate, hq, sentResponse],
      by simp [handleGenerate, hq, sentResponse],
      by simp [handleGenerate, hq, sentResponse],
      fun s d => by simp [handleGenerate, hq, sentResponse]⟩

theorem engine_called_at_most_once_witness :
    callCount (processUpload (β := String)
      (some ⟨"d.csv", "text/csv", 5, "uploads/u4.csv"⟩) "plot sales"
      (DownstreamOutcome.success "ok")) ≤ 1 ∧
    (∀ f : UploadedFile, "plot sales" ≠ "" →
      sentResponse (handleGenerate (β := String) (some f) "plot sales" DownstreamOutcome.connRefused) =
        some ⟨503, Body.errorMsg "Graph generation service unavailable"⟩ ∧
      sentResponse (handleGenerate (β := String) (some f) "plot sales" DownstreamOutcome.timedOut) =
        some ⟨500, Body.errorMsg "Failed to start graph generation service"⟩ ∧
      sentResponse (handleGenerate (β := String) (some f) "plot sales" DownstreamOutcome.otherError) =
        some ⟨500, Body.errorMsg "Failed to start graph generation service"⟩ ∧
      ∀ (s : Nat) (d : String),
        sentResponse (handleGenerate (some f) "plot sales" (DownstreamOutcome.errorResponse s d)) =
          some ⟨s, Body.payload d⟩) :=
  engine_called_at_most_once String
    (some ⟨"d.csv", "text/csv", 5, "uploads/u4.csv"⟩) "plot sales"
    (DownstreamOutcome.success "ok")

/-- C7: spec-modelled Quality Gate — for every table whose columns each hold a
single distinct value, checkQuality reports blocking with an
AllColumnsConstant issue; checkQuality takes no query input, so this holds
regardless of the query string. -/
theorem allconstant_table_blocks (t : Table) (profiles : List ColumnProfile)
    (chartNeedsMeasure : Bool) (_query : String)
    (h : ∀ c ∈ t.cols, distinctCount c = 1) :
    (checkQuality t profiles chartNeedsMeasure).2 = true ∧
    QualityIssue.AllColumnsConstant ∈ (checkQuality t profiles chartNeedsMeasure).1 := by
  have hall : t.cols.all (fun c => distinctCount c = 1) = true := by
    rw [List.all_eq_true]
    intro c hc
    exact decide_eq_true (h c hc)
  constructor
  · simp only [checkQuality, hall, if_true]
    split <;> split <;> simp
  · simp only [checkQuality, hall, if_true]
    simp

theorem allconstant_table_blocks_witness :
    (checkQuality ⟨[⟨"region", [some "A", some "A"]⟩]⟩ [] true).2 = true ∧
    QualityIssue.AllColumnsConstant ∈
      (checkQuality ⟨[⟨"region", [some "A", some "A"]⟩]⟩ [] true).1 :=
  allconstant_table_blocks ⟨[⟨"region", [some "A", some "A"]⟩]⟩ [] true
    "make a chart" (by decide)

/-- C8: for a request carrying a file and a non-empty query, the handler
unlinks the uploaded file before sending the response, on the success path
and on every failure path of the engine call. -/
theorem upload_cleanup_before_response (β : Type) (f : UploadedFile)
    (q : String) (h : q ≠ "") (o : DownstreamOutcome β) :
    ∃ r : HttpResponse β, handleGenerate (some f) q o =
      [Effect.callEngine, Effect.unlink f.path, Effect.respond r] := by
  cases o with
  | success d =>
      exact ⟨⟨200, Body.payload d⟩, by simp [handleGenerate, h]⟩
  | errorResponse s d =>
      exact ⟨⟨s, Body.payload d⟩, by simp [handleGenerate, h]⟩
  | connRefused =>
      exact ⟨⟨503, Body.errorMsg "Graph generation service unavailable"⟩,
        by simp [handleGenerate, h]⟩
  | timedOut =>
      exact ⟨⟨500, Body.errorMsg "Failed to start graph generation service"⟩,
        by simp [handleGenerate, h]⟩
  | otherError =>
      exact ⟨⟨500, Body.errorMsg "Failed to start graph generation service"⟩,
        by simp [handleGenerate, h]⟩

theorem upload_cleanup_before_response_witness :
    ∃ r : HttpResponse String,
      handleGenerate (some ⟨"d.csv", "text/csv", 5, "uploads/u5.csv"⟩) "plot sales"
        (DownstreamOutcome.success "ok") =
      [Effect.callEngine, Effect.unlink "uploads/u5.csv", Effect.respond r] :=
  upload_cleanup_before_response String
    ⟨"d.csv", "text/csv", 5, "uploads/u5.csv"⟩ "plot sales" (by decide)
    (DownstreamOutcome.success "ok")

/-- C9: a request with no file is answered 400 No file uploaded, and one with
a file but an empty query 400 No query provided; in both cases the engine
service is never called. -/
theorem missing_file_or_query_rejected (β : Type) (q : String) (f : UploadedFile)
    (o o' : DownstreamOutcome β) :
    handleGenerate (β := β) none q o =
      [Effect.respond ⟨400, Body.errorMsg "No file uploaded"⟩] ∧
    handleGenerate (some f) "" o' =
      [Effect.respond ⟨400, Body.errorMsg "No query provided"⟩] ∧
    Effect.callEngine ∉ handleGenerate (β := β) none q o ∧
    Effect.callEngine ∉ handleGenerate (some f) "" o' := by
  refine ⟨rfl, by simp [handleGenerate], ?_, ?_⟩ <;> simp [handleGenerate]

/-- C10: the gateway passes the engine's decision through unchanged — on a
successful engine call it responds with the engine's body, and on an engine
error response it responds with the same status code and the same body. -/
theorem gateway_passthrough (β : Type) (f : UploadedFile) (q : String)
    (h : q ≠ "") (d : β) (s : Nat) :
    sentResponse (handleGenerate (some f) q (DownstreamOutcome.success d)) =
      some ⟨200, Body.payload d⟩ ∧
    sentResponse (handleGenerate (some f) q (DownstreamOutcome.errorResponse s d)) =
      some ⟨s, Body.payload d⟩ := by
  constructor <;> simp [handleGenerate, h, sentResponse]

theorem gateway_passthrough_witness :
    sentResponse (handleGenerate (some ⟨"d.csv", "text/csv", 5, "uploads/u6.csv"⟩)
        "plot sales" (DownstreamOutcome.success "graphdata")) =
      some ⟨200, Body.payload "graphdata"⟩ ∧
    sentResponse (handleGenerate (some ⟨"d.csv", "text/csv", 5, "uploads/u6.csv"⟩)
        "plot sales" (DownstreamOutcome.errorResponse 422 "graphdata")) =
      some ⟨422, Body.payload "graphdata"⟩ :=
  gateway_passthrough String ⟨"d.csv", "text/csv", 5, "uploads/u6.csv"⟩
    "plot sales" (by decide) "graphdata" 422

end GraphBot
